import Mathlib

/-!
Verification development for the Student Document Dashboard backend
(`backend/app.py`): a Flask application offering login with per-IP
throttling of failed attempts, JWT bearer authentication for protected
routes, PDF upload validation, and ownership-scoped listing/download of
uploaded documents.

The shallow embedding below translates the Python source into pure Lean
functions.  Wall-clock time (`time.time()`, `datetime.utcnow`) is a `Nat`
of seconds passed explicitly.  The module-level mutable globals
(`FAILED_ATTEMPTS`, `BLOCKED_IPS`, the SQLAlchemy tables, the uploads
directory and the security log) become fields of an explicit server
state threaded through every route handler.
-/

namespace StudentPortal

abbrev IP := String

/-- `FAILED_ATTEMPTS` / `BLOCKED_IPS` are Python dicts keyed by client
address; we model a dict as an association list with unique keys. -/
def lookupKey (l : List (IP × Nat)) (ip : IP) : Option Nat :=
  match l with
  | [] => none
  | (k, v) :: rest => if k = ip then some v else lookupKey rest ip

/-- Dict assignment `d[k] = v`: overwrite in place or append. -/
def setKey (l : List (IP × Nat)) (ip : IP) (v : Nat) : List (IP × Nat) :=
  match l with
  | [] => [(ip, v)]
  | (k, w) :: rest => if k = ip then (ip, v) :: rest else (k, w) :: setKey rest ip v

/-- Dict deletion `del d[k]`. -/
def eraseKey (l : List (IP × Nat)) (ip : IP) : List (IP × Nat) :=
  match l with
  | [] => []
  | (k, w) :: rest => if k = ip then eraseKey rest ip else (k, w) :: eraseKey rest ip

/-- The two rate-limiting globals of app.py lines 63-66:
`FAILED_ATTEMPTS = defaultdict(int)` and `BLOCKED_IPS = {}`
(`blockedIPs` maps an address to its block-until instant). -/
structure ThrottleState where
  failedAttempts : List (IP × Nat)
  blockedIPs : List (IP × Nat)
deriving Repr, DecidableEq

def BLOCK_THRESHOLD : Nat := 10

def BLOCK_DURATION : Nat := 60

/-- `defaultdict(int)` read: a missing address counts as 0. -/
def getCount (t : ThrottleState) (ip : IP) : Nat :=
  match lookupKey t.failedAttempts ip with
  | some n => n
  | none => 0

/-- Events written to security.log via `logging.warning` (app.py keeps a
plaintext audit log; we record the structured content of each line). -/
inductive AuditEvent where
  | ipBlocked (ip : IP)
  | blockedIPAttempt (ip : IP)
  | unauthorizedDownload (requester : Nat) (docId : String) (ip : IP)
deriving Repr, DecidableEq

/-- app.py lines 68-74.  True iff a block-until instant exists for `ip`
and is still in the future; an expired entry is lazily deleted. -/
def is_ip_blocked (t : ThrottleState) (now : Nat) (ip : IP) : Bool × ThrottleState :=
  match lookupKey t.blockedIPs ip with
  | some untilTime =>
      if now < untilTime then (true, t)
      else (false, { t with blockedIPs := eraseKey t.blockedIPs ip })
  | none => (false, t)

/-- app.py lines 76-80.  Increments the failure count for `ip`; once the
new count reaches `BLOCK_THRESHOLD` the address is (re-)blocked until
`now + BLOCK_DURATION` and an audit event is emitted. -/
def register_failed_attempt (t : ThrottleState) (now : Nat) (ip : IP) :
    ThrottleState × List AuditEvent :=
  let c := getCount t ip + 1
  let t1 : ThrottleState := { t with failedAttempts := setKey t.failedAttempts ip c }
  if BLOCK_THRESHOLD ≤ c then
    ({ t1 with blockedIPs := setKey t1.blockedIPs ip (now + BLOCK_DURATION) },
     [AuditEvent.ipBlocked ip])
  else
    (t1, [])

/-- `werkzeug.security.generate_password_hash`, modelled as an injective
tagging of the password; the only property the app uses is that
`check_password_hash` recognises exactly the hashed password. -/
def generate_password_hash (pwd : String) : String :=
  "pbkdf2-sha256$" ++ pwd

/-- `werkzeug.security.check_password_hash`. -/
def check_password_hash (hash pwd : String) : Bool :=
  hash == generate_password_hash pwd

/-- The `User` model (app.py lines 86-90). -/
structure User where
  id : Nat
  email : String
  password_hash : String
deriving Repr, DecidableEq

/-- The `Document` model (app.py lines 93-100): uuid primary key,
owning `user_id`, original and stored filenames, upload instant. -/
structure Document where
  id : String
  user_id : Nat
  original_name : String
  stored_name : String
  uploaded_at : Nat
deriving Repr, DecidableEq

/-- The JSON shape produced by `serialize_document` (app.py lines
106-112): note it exposes no `user_id`. -/
structure DocJson where
  id : String
  original_name : String
  stored_name : String
  uploaded_at : Nat
deriving Repr, DecidableEq

def serialize_document (d : Document) : DocJson :=
  { id := d.id
    original_name := d.original_name
    stored_name := d.stored_name
    uploaded_at := d.uploaded_at }

/-- An uploaded file object (`werkzeug` FileStorage): declared MIME
type, declared filename, raw bytes and a stream position.  Bytes are
`Nat`s below 256. -/
structure FileStream where
  filename : String
  mimetype : String
  content : List Nat
  pos : Nat
deriving Repr, DecidableEq

/-- `file.read(n)`: up to `n` bytes from the current position, advancing it. -/
def fileRead (f : FileStream) (n : Nat) : List Nat × FileStream :=
  ((f.content.drop f.pos).take n, { f with pos := min (f.pos + n) f.content.length })

/-- `file.seek(p)`. -/
def fileSeek (f : FileStream) (p : Nat) : FileStream :=
  { f with pos := p }

/-- The bytes of `b"%PDF"`. -/
def PDF_MAGIC : List Nat := [37, 80, 68, 70]

/-- Python `str.lower()` (ASCII case folding). -/
def strLower (s : String) : String :=
  String.mk (s.toList.map Char.toLower)

/-- Python `str.endswith(suffix)`, as a suffix test on the character
sequence. -/
def strEndsWith (s suffix : String) : Bool :=
  let a := s.toList
  let b := suffix.toList
  a.drop (a.length - b.length) == b

/-- app.py lines 114-130: accept only when the declared MIME type is
application/pdf, the first four bytes read equal `%PDF` (pointer reset
to 0 right after the read), and the lowercased filename ends in
".pdf".  Returns the verdict and the stream as the handler sees it
afterwards. -/
def validate_pdf (file : FileStream) : Bool × FileStream :=
  if file.mimetype ≠ "application/pdf" then
    (false, file)
  else
    let rd := fileRead file 4
    let f2 := fileSeek rd.2 0
    if rd.1 ≠ PDF_MAGIC then
      (false, f2)
    else if !(strEndsWith (strLower file.filename) ".pdf") then
      (false, f2)
    else
      (true, f2)

/-- `werkzeug.utils.secure_filename`, modelled as keeping only ASCII
alphanumerics, dot, dash and underscore.  (The claims under proof do
not depend on the sanitizer's exact normalisation, only on which inputs
feed the stored record.) -/
def secure_filename (s : String) : String :=
  String.mk (s.toList.filter (fun c => c.isAlphanum || c = '.' || c = '-' || c = '_'))

/-- app.py lines 133-135. -/
def ensure_safe_filename (filename : String) : String :=
  secure_filename filename

/-- JWT claims placed in the login payload (app.py lines 226-232). -/
structure JwtPayload where
  sub : Nat
  email : String
  iat : Nat
  exp : Nat
deriving Repr, DecidableEq

/-- A wire token: either a well-formed HS256 token (payload plus the
key it was signed with) or an arbitrary malformed string.  This models
exactly the two observable outcomes of PyJWT signature handling: a
token round-trips iff it was produced under the same secret. -/
inductive Token where
  | signed (payload : JwtPayload) (key : String)
  | malformed (raw : String)
deriving Repr, DecidableEq

inductive JwtError where
  | ExpiredSignature
  | InvalidToken
deriving Repr, DecidableEq

/-- `jwt.encode(payload, key, algorithm="HS256")`. -/
def jwt_encode (p : JwtPayload) (key : String) : Token :=
  Token.signed p key

/-- `jwt.decode(token, key, algorithms=["HS256"])` at wall-clock `now`:
signature first (a wrong-key or malformed token raises
InvalidTokenError), then the `exp` claim (PyJWT raises
ExpiredSignatureError when `exp ≤ now`). -/
def jwt_decode (t : Token) (key : String) (now : Nat) : Except JwtError JwtPayload :=
  match t with
  | Token.malformed _ => Except.error JwtError.InvalidToken
  | Token.signed p k =>
      if k ≠ key then Except.error JwtError.InvalidToken
      else if p.exp ≤ now then Except.error JwtError.ExpiredSignature
      else Except.ok p

def JWT_SECRET_KEY : String := "super-secret-demo-key"

def JWT_EXPIRATION_SECONDS : Nat := 3600

/-- The whole mutable world of the process: the two SQLAlchemy tables,
the throttle globals, the uploads directory (stored name ↦ bytes) and
the security log. -/
structure SState where
  users : List User
  documents : List Document
  throttle : ThrottleState
  uploads : List (String × List Nat)
  audit : List AuditEvent
deriving Repr, DecidableEq

/-- `register_failed_attempt` as the routes see it: mutate the globals
and append any emitted audit line. -/
def recordFailureS (st : SState) (now : Nat) (ip : IP) : SState :=
  let r := register_failed_attempt st.throttle now ip
  { st with throttle := r.1, audit := st.audit ++ r.2 }

/-- Possible response bodies (`jsonify` / `send_from_directory`). -/
inductive RespBody where
  | err (msg : String)
  | loginOk (userId : Nat) (email : String) (token : Token)
  | docList (docs : List DocJson)
  | uploadOk (doc : DocJson)
  | fileAttachment (stored_name : String)
deriving Repr, DecidableEq

structure Response where
  body : RespBody
  status : Nat
deriving Repr, DecidableEq

/-- The Authorization header, pre-parsed: absent, present but not of
the form `Bearer <token>`, or a bearer token (the part after the
blank, as extracted by `split(" ", 1)[1].strip()`). -/
inductive AuthHeaderVal where
  | missing
  | nonBearer (raw : String)
  | bearer (tok : Token)
deriving Repr, DecidableEq

/-- What a protected route sees of the inbound request:
`request.remote_addr` and the Authorization header. -/
structure Request where
  ip : IP
  authHeader : AuthHeaderVal
deriving Repr, DecidableEq

/-- The `auth_required` decorator (app.py lines 163-200): throttle
check, bearer-header check, JWT decode, subject lookup by primary key;
every failure path registers a failed attempt, a full success runs the
wrapped handler with the resolved user. -/
def auth_required (handler : User → SState → Response × SState)
    (now : Nat) (req : Request) (st : SState) : Response × SState :=
  match is_ip_blocked st.throttle now req.ip with
  | (true, t1) =>
    ({ body := RespBody.err "Too many failed attempts. Try again later.", status := 429 },
     { st with throttle := t1, audit := st.audit ++ [AuditEvent.blockedIPAttempt req.ip] })
  | (false, t1) =>
    match req.authHeader with
    | AuthHeaderVal.bearer tok =>
        match jwt_decode tok JWT_SECRET_KEY now with
        | Except.error JwtError.ExpiredSignature =>
            ({ body := RespBody.err "Token expired", status := 401 },
             recordFailureS { st with throttle := t1 } now req.ip)
        | Except.error JwtError.InvalidToken =>
            ({ body := RespBody.err "Invalid token", status := 401 },
             recordFailureS { st with throttle := t1 } now req.ip)
        | Except.ok payload =>
            match st.users.find? (fun u => u.id == payload.sub) with
            | none =>
                ({ body := RespBody.err "User not found", status := 401 },
                 recordFailureS { st with throttle := t1 } now req.ip)
            | some user => handler user { st with throttle := t1 }
    | AuthHeaderVal.missing =>
        ({ body := RespBody.err "Authentication required", status := 401 },
         recordFailureS { st with throttle := t1 } now req.ip)
    | AuthHeaderVal.nonBearer _ =>
        ({ body := RespBody.err "Authentication required", status := 401 },
         recordFailureS { st with throttle := t1 } now req.ip)

/-- The login route (app.py lines 206-245).  Note that it consults the
throttle only through `register_failed_attempt` on bad credentials; it
never calls `is_ip_blocked`.  `email?`/`password?` model
`data.get(...)` on the request JSON (absent ↦ none); Python truthiness
treats both `None` and `""` as missing. -/
def login (now : Nat) (ip : IP) (email? password? : Option String) (st : SState) :
    Response × SState :=
  let email := email?.getD ""
  let password := password?.getD ""
  if email = "" ∨ password = "" then
    ({ body := RespBody.err "Email and password required", status := 400 }, st)
  else
    match st.users.find? (fun u => u.email == email) with
    | none =>
        ({ body := RespBody.err "Invalid credentials", status := 401 }, recordFailureS st now ip)
    | some user =>
        if !(check_password_hash user.password_hash password) then
          ({ body := RespBody.err "Invalid credentials", status := 401 }, recordFailureS st now ip)
        else
          let st1 : SState :=
            { st with throttle :=
                { st.throttle with failedAttempts := setKey st.throttle.failedAttempts ip 0 } }
          let payload : JwtPayload :=
            { sub := user.id, email := user.email, iat := now,
              exp := now + JWT_EXPIRATION_SECONDS }
          ({ body := RespBody.loginOk user.id user.email (jwt_encode payload JWT_SECRET_KEY),
             status := 200 }, st1)

/-- The upload route (app.py lines 251-280), wrapped in
`auth_required`.  `file?` models `request.files["file"]` when present;
`newId` is the uuid4 the Document model generates for the new row. -/
def upload_document (now : Nat) (req : Request) (file? : Option FileStream) (newId : String)
    (st : SState) : Response × SState :=
  auth_required (fun user st1 =>
    match file? with
    | none => ({ body := RespBody.err "No file uploaded", status := 400 }, st1)
    | some file =>
        let v := validate_pdf file
        if !v.1 then
          ({ body := RespBody.err "Only PDF files are allowed", status := 400 }, st1)
        else
          let safe_original := ensure_safe_filename file.filename
          let stored_name := toString user.id ++ "_" ++ toString now ++ "_" ++ safe_original
          let st2 : SState := { st1 with uploads := st1.uploads ++ [(stored_name, v.2.content)] }
          let doc : Document :=
            { id := newId, user_id := user.id, original_name := safe_original,
              stored_name := stored_name, uploaded_at := now }
          let st3 : SState := { st2 with documents := st2.documents ++ [doc] }
          ({ body := RespBody.uploadOk (serialize_document doc), status := 200 }, st3))
    now req st

/-- The list route (app.py lines 286-294): documents filtered by the
authenticated user's id. -/
def list_documents (now : Nat) (req : Request) (st : SState) : Response × SState :=
  auth_required (fun user st1 =>
    ({ body := RespBody.docList
         ((st1.documents.filter (fun d => d.user_id == user.id)).map serialize_document),
       status := 200 }, st1))
    now req st

/-- The download route (app.py lines 300-330): 400 on a missing/empty
file_id, 404 when no document has that id, 403 plus an audit line plus
`register_failed_attempt` when the owner differs from the caller, else
the stored file as an attachment. -/
def download_document (now : Nat) (req : Request) (fileId? : Option String)
    (st : SState) : Response × SState :=
  auth_required (fun user st1 =>
    match fileId? with
    | none => ({ body := RespBody.err "file_id is required", status := 400 }, st1)
    | some fid =>
        if fid = "" then
          ({ body := RespBody.err "file_id is required", status := 400 }, st1)
        else
          match st1.documents.find? (fun d => d.id == fid) with
          | none => ({ body := RespBody.err "File not found", status := 404 }, st1)
          | some doc =>
              if doc.user_id ≠ user.id then
                let r := register_failed_attempt st1.throttle now req.ip
                ({ body := RespBody.err "Not authorized to download this file", status := 403 },
                 { st1 with
                    throttle := r.1,
                    audit := st1.audit
                      ++ [AuditEvent.unauthorizedDownload user.id fid req.ip] ++ r.2 })
              else
                ({ body := RespBody.fileAttachment doc.stored_name, status := 200 }, st1))
    now req st

/-- First row `seed_mock_user` inserts (app.py lines 141-157). -/
def mockUser1 : User :=
  { id := 1, email := "test@student.com",
    password_hash := generate_password_hash "password123" }

/-- Second row `seed_mock_user` inserts. -/
def mockUser2 : User :=
  { id := 2, email := "test1@student.com",
    password_hash := generate_password_hash "password123" }

/-- The users table after seeding, with autoincrement ids 1 and 2. -/
def seededUsers : List User :=
  [mockUser1, mockUser2]

/-! ## Basic lemmas about the throttle dictionaries -/

theorem lookupKey_setKey_self (l : List (IP × Nat)) (ip : IP) (v : Nat) :
    lookupKey (setKey l ip v) ip = some v := by
  induction l with
  | nil => simp [setKey, lookupKey]
  | cons hd tl ih =>
      by_cases hk : hd.1 = ip
      · simp [setKey, lookupKey, hk]
      · simp [setKey, lookupKey, hk, ih]

theorem is_ip_blocked_failedAttempts (t : ThrottleState) (now : Nat) (ip : IP) :
    ((is_ip_blocked t now ip).2).failedAttempts = t.failedAttempts := by
  unfold is_ip_blocked
  cases h : lookupKey t.blockedIPs ip with
  | none => rfl
  | some untilTime =>
      by_cases hn : now < untilTime <;> simp [hn]

theorem register_failed_attempt_failedAttempts (t : ThrottleState) (now : Nat) (ip : IP) :
    ((register_failed_attempt t now ip).1).failedAttempts
      = setKey t.failedAttempts ip (getCount t ip + 1) := by
  unfold register_failed_attempt
  by_cases h : BLOCK_THRESHOLD ≤ getCount t ip + 1 <;> simp [h]

theorem getCount_register_failed_attempt (t : ThrottleState) (now : Nat) (ip : IP) :
    getCount (register_failed_attempt t now ip).1 ip = getCount t ip + 1 := by
  have hf := register_failed_attempt_failedAttempts t now ip
  simp [getCount, hf, lookupKey_setKey_self]

theorem register_failed_attempt_blocks (t : ThrottleState) (now : Nat) (ip : IP)
    (h : BLOCK_THRESHOLD ≤ getCount t ip) :
    lookupKey ((register_failed_attempt t now ip).1).blockedIPs ip
      = some (now + BLOCK_DURATION) := by
  have h1 : BLOCK_THRESHOLD ≤ getCount t ip + 1 := Nat.le_succ_of_le h
  unfold register_failed_attempt
  simp [h1, lookupKey_setKey_self]

/-! ## Gateway lemmas: how `auth_required` dispatches -/

theorem auth_required_success (handler : User → SState → Response × SState)
    (now : Nat) (req : Request) (st : SState) (t1 : ThrottleState)
    (tok : Token) (p : JwtPayload) (u : User)
    (hb : is_ip_blocked st.throttle now req.ip = (false, t1))
    (ha : req.authHeader = AuthHeaderVal.bearer tok)
    (hd : jwt_decode tok JWT_SECRET_KEY now = Except.ok p)
    (hu : st.users.find? (fun x => x.id == p.sub) = some u) :
    auth_required handler now req st = handler u { st with throttle := t1 } := by
  unfold auth_required
  rw [hb]
  dsimp only
  rw [ha]
  dsimp only
  rw [hd]
  dsimp only
  rw [hu]

theorem auth_required_blocked (handler : User → SState → Response × SState)
    (now : Nat) (req : Request) (st : SState) (t1 : ThrottleState)
    (hb : is_ip_blocked st.throttle now req.ip = (true, t1)) :
    auth_required handler now req st
      = ({ body := RespBody.err "Too many failed attempts. Try again later.", status := 429 },
         { st with
            throttle := t1,
            audit := st.audit ++ [AuditEvent.blockedIPAttempt req.ip] }) := by
  unfold auth_required
  rw [hb]

theorem auth_required_expired (handler : User → SState → Response × SState)
    (now : Nat) (req : Request) (st : SState) (t1 : ThrottleState) (tok : Token)
    (hb : is_ip_blocked st.throttle now req.ip = (false, t1))
    (ha : req.authHeader = AuthHeaderVal.bearer tok)
    (hd : jwt_decode tok JWT_SECRET_KEY now = Except.error JwtError.ExpiredSignature) :
    auth_required handler now req st
      = ({ body := RespBody.err "Token expired", status := 401 },
         recordFailureS { st with throttle := t1 } now req.ip) := by
  unfold auth_required
  rw [hb]
  dsimp only
  rw [ha]
  dsimp only
  rw [hd]

theorem auth_required_invalid (handler : User → SState → Response × SState)
    (now : Nat) (req : Request) (st : SState) (t1 : ThrottleState) (tok : Token)
    (hb : is_ip_blocked st.throttle now req.ip = (false, t1))
    (ha : req.authHeader = AuthHeaderVal.bearer tok)
    (hd : jwt_decode tok JWT_SECRET_KEY now = Except.error JwtError.InvalidToken) :
    auth_required handler now req st
      = ({ body := RespBody.err "Invalid token", status := 401 },
         recordFailureS { st with throttle := t1 } now req.ip) := by
  unfold auth_required
  rw [hb]
  dsimp only
  rw [ha]
  dsimp only
  rw [hd]

theorem recordFailureS_documents (st : SState) (now : Nat) (ip : IP) :
    (recordFailureS st now ip).documents = st.documents := rfl

theorem recordFailureS_uploads (st : SState) (now : Nat) (ip : IP) :
    (recordFailureS st now ip).uploads = st.uploads := rfl

/-- Every gateway denial path and the identity-attaching success path
preserve membership of pre-existing document rows, provided the wrapped
handler does. -/
theorem auth_required_documents_mem (handler : User → SState → Response × SState)
    (now : Nat) (req : Request) (st : SState) (d : Document)
    (hH : ∀ u s, d ∈ s.documents → d ∈ ((handler u s).2).documents)
    (hd : d ∈ st.documents) :
    d ∈ ((auth_required handler now req st).2).documents := by
  unfold auth_required
  cases hib : is_ip_blocked st.throttle now req.ip with
  | mk b t1 =>
    cases b
    · dsimp only
      cases ha : req.authHeader with
      | missing => simpa [recordFailureS] using hd
      | nonBearer raw => simpa [recordFailureS] using hd
      | bearer tok =>
        dsimp only
        cases hdec : jwt_decode tok JWT_SECRET_KEY now with
        | error e => cases e <;> simpa [recordFailureS] using hd
        | ok payload =>
          dsimp only
          cases hf : st.users.find? (fun u => u.id == payload.sub) with
          | none => simpa [recordFailureS] using hd
          | some user => exact hH user _ hd
    · simpa using hd

/-- The login route never touches the documents table. -/
theorem login_documents (now : Nat) (ip : IP) (email? password? : Option String)
    (st : SState) :
    ((login now ip email? password? st).2).documents = st.documents := by
  unfold login
  dsimp only
  split
  · rfl
  · split
    · rfl
    · split
      · rfl
      · rfl

/-! ## Claim theorems -/

/-- C9: the failure counter survives both the triggering of a block
(`register_failed_attempt` only ever increments it) and the lazy expiry
of a block (`is_ip_blocked` never touches it); consequently, once an
address has accumulated at least `BLOCK_THRESHOLD` failures, a single
further recorded failure re-blocks it until `now + BLOCK_DURATION`, so
it is blocked at every instant strictly before that. -/
theorem C9_counter_never_reset (t : ThrottleState) (now : Nat) (ip : IP) :
    (((is_ip_blocked t now ip).2).failedAttempts = t.failedAttempts)
    ∧ (getCount (register_failed_attempt t now ip).1 ip = getCount t ip + 1)
    ∧ (BLOCK_THRESHOLD ≤ getCount t ip →
        lookupKey ((register_failed_attempt t now ip).1).blockedIPs ip
            = some (now + BLOCK_DURATION)
        ∧ ∀ t2, t2 < now + BLOCK_DURATION →
            (is_ip_blocked (register_failed_attempt t now ip).1 t2 ip).1 = true) := by
  refine ⟨is_ip_blocked_failedAttempts t now ip,
          getCount_register_failed_attempt t now ip, ?_⟩
  intro h
  refine ⟨register_failed_attempt_blocks t now ip h, ?_⟩
  intro t2 ht2
  unfold is_ip_blocked
  rw [register_failed_attempt_blocks t now ip h]
  simp [ht2]

/-- Witness for C9 at a concrete state: address 1.2.3.4 already has 10
recorded failures (its earlier block has lapsed); one further failure at
time 200 re-blocks it until 260, so it is still blocked at time 259. -/
theorem C9_witness :
    lookupKey ((register_failed_attempt
        { failedAttempts := [("1.2.3.4", 10)], blockedIPs := [] } 200 "1.2.3.4").1).blockedIPs
        "1.2.3.4" = some 260
    ∧ (is_ip_blocked (register_failed_attempt
        { failedAttempts := [("1.2.3.4", 10)], blockedIPs := [] } 200 "1.2.3.4").1
        259 "1.2.3.4").1 = true := by
  have h := (C9_counter_never_reset
      { failedAttempts := [("1.2.3.4", 10)], blockedIPs := [] } 200 "1.2.3.4").2.2
      (by decide)
  exact ⟨h.1, h.2 259 (by decide)⟩

/-- C6: `validate_pdf` accepts exactly when the declared MIME type is
application/pdf, the first four content bytes are the `%PDF` signature
and the lowercased filename ends in ".pdf"; a wrong signature is
rejected whatever the other two say; and on acceptance the stream is
back at position 0 with its bytes, name and type untouched. -/
theorem C6_validate_pdf_all_three_checks (f : FileStream) (h0 : f.pos = 0) :
    ((validate_pdf f).1 = true ↔
       (f.mimetype = "application/pdf" ∧ f.content.take 4 = PDF_MAGIC ∧
        (strEndsWith (strLower f.filename) ".pdf") = true))
    ∧ (f.content.take 4 ≠ PDF_MAGIC → (validate_pdf f).1 = false)
    ∧ ((validate_pdf f).1 = true →
        ((validate_pdf f).2.pos = 0 ∧ (validate_pdf f).2.content = f.content ∧
         (validate_pdf f).2.filename = f.filename ∧
         (validate_pdf f).2.mimetype = f.mimetype)) := by
  unfold validate_pdf fileRead fileSeek
  by_cases hm : f.mimetype = "application/pdf"
  · by_cases hh : f.content.take 4 = PDF_MAGIC
    · cases he : strEndsWith (strLower f.filename) ".pdf" <;>
        simp [hm, hh, he, h0]
    · simp [hm, hh, h0]
  · simp [hm, h0]

/-- A well-formed PDF upload: right MIME type, `%PDF` signature,
".pdf" extension up to case, stream at position 0. -/
def fileOk : FileStream :=
  { filename := "hw1.PDF", mimetype := "application/pdf",
    content := [37, 80, 68, 70, 9, 9], pos := 0 }

/-- Witness for C6: a well-formed PDF upload is accepted and its stream
handed back at position 0; the same theorem instance also certifies the
signature-first rejection clause vacuously holds of this file. -/
theorem C6_witness :
    ((validate_pdf fileOk).1 = true ↔
       (fileOk.mimetype = "application/pdf" ∧ fileOk.content.take 4 = PDF_MAGIC ∧
        (strEndsWith (strLower fileOk.filename) ".pdf") = true))
    ∧ (fileOk.content.take 4 ≠ PDF_MAGIC → (validate_pdf fileOk).1 = false)
    ∧ ((validate_pdf fileOk).1 = true →
        ((validate_pdf fileOk).2.pos = 0 ∧ (validate_pdf fileOk).2.content = fileOk.content ∧
         (validate_pdf fileOk).2.filename = fileOk.filename ∧
         (validate_pdf fileOk).2.mimetype = fileOk.mimetype)) :=
  C6_validate_pdf_all_three_checks fileOk rfl

/-- A server state in which address 1.2.3.4 has accumulated exactly
`BLOCK_THRESHOLD` failures and carries a block-until entry of 160,
so at time 100 it is inside the 60-second block window. -/
def stInsideBlockWindow : SState :=
  { users := seededUsers, documents := [],
    throttle := { failedAttempts := [("1.2.3.4", 10)], blockedIPs := [("1.2.3.4", 160)] },
    uploads := [], audit := [] }

/-- C1 (refuting the claim, in favour of the spec): the login route
never consults `is_ip_blocked`, so an address with 10 accumulated
failures that is inside its 60-second block window (blocked until time
160, request at time 100) still gets a full credential check on its
next login attempt: valid credentials yield 200 (and even reset the
failure counter while the block entry stays), invalid ones yield 401 —
never the 429 the specification requires. -/
theorem C1_login_ignores_block :
    ((login 100 "1.2.3.4" (some "test@student.com") (some "password123")
        stInsideBlockWindow).1.status = 200)
    ∧ ((login 100 "1.2.3.4" (some "test@student.com") (some "password123")
        stInsideBlockWindow).2.throttle
        = { failedAttempts := [("1.2.3.4", 0)], blockedIPs := [("1.2.3.4", 160)] })
    ∧ ((login 100 "1.2.3.4" (some "wrong@student.com") (some "password123")
        stInsideBlockWindow).1.status = 401) := by
  refine ⟨?_, ?_, ?_⟩ <;> decide

/-- The claims of the token `login` issues to seeded user 1 at time 0. -/
def payloadUser1 : JwtPayload :=
  { sub := 1, email := "test@student.com", iat := 0, exp := 3600 }

/-- The claims of the token `login` issues to seeded user 2 at time 0. -/
def payloadUser2 : JwtPayload :=
  { sub := 2, email := "test1@student.com", iat := 0, exp := 3600 }

/-- Token for seeded user 1 as `login` issues it at time 0. -/
def tokUser1 : Token :=
  jwt_encode payloadUser1 JWT_SECRET_KEY

/-- Token for seeded user 2 as `login` issues it at time 0. -/
def tokUser2 : Token :=
  jwt_encode payloadUser2 JWT_SECRET_KEY

/-- A server state with the seeded users, no documents and a clean throttle. -/
def stClean : SState :=
  { users := seededUsers, documents := [],
    throttle := { failedAttempts := [], blockedIPs := [] },
    uploads := [], audit := [] }

/-- A server state in which address 9.9.9.9 has five recorded failures
and no block. -/
def stFiveFailures : SState :=
  { users := seededUsers, documents := [],
    throttle := { failedAttempts := [("9.9.9.9", 5)], blockedIPs := [] },
    uploads := [], audit := [] }

/-- Request from 9.9.9.9 presenting user 1's valid token. -/
def reqFrom9 : Request :=
  { ip := "9.9.9.9", authHeader := AuthHeaderVal.bearer tokUser1 }

/-- A trivial handler used to probe the gateway in concrete instances. -/
def probeHandler : User → SState → Response × SState :=
  fun _ s => ({ body := RespBody.err "probe", status := 204 }, s)

/-- C2 counterexample: at a state where 9.9.9.9 has five recorded
failures, a fully successful authenticated request (list, valid token,
existing user, not blocked) succeeds with 200 — yet the failure counter
for 9.9.9.9 is still 5 afterwards, not the zero the claim demands. -/
theorem C2_counterexample :
    ((list_documents 10 reqFrom9 stFiveFailures).1.status = 200)
    ∧ getCount ((list_documents 10 reqFrom9 stFiveFailures).2).throttle "9.9.9.9" = 5 := by
  refine ⟨?_, ?_⟩ <;> decide

/-- C2 as amended: a fully successful authentication through the
gateway hands the handler a state whose failure counters are exactly
the pre-request ones — unchanged, not reset to zero (only a successful
login resets them); and an address inside an active block window never
reaches that success path at all: it is rejected with 429. -/
theorem C2_gateway_success_leaves_counter :
    (∀ (handler : User → SState → Response × SState) (now : Nat) (req : Request)
       (st : SState) (t1 : ThrottleState) (tok : Token) (p : JwtPayload) (u : User),
       is_ip_blocked st.throttle now req.ip = (false, t1) →
       req.authHeader = AuthHeaderVal.bearer tok →
       jwt_decode tok JWT_SECRET_KEY now = Except.ok p →
       st.users.find? (fun x => x.id == p.sub) = some u →
       auth_required handler now req st = handler u { st with throttle := t1 }
         ∧ t1.failedAttempts = st.throttle.failedAttempts)
    ∧ (∀ (handler : User → SState → Response × SState) (now : Nat) (req : Request)
       (st : SState) (bu : Nat),
       lookupKey st.throttle.blockedIPs req.ip = some bu → now < bu →
       (auth_required handler now req st).1.status = 429) := by
  constructor
  · intro handler now req st t1 tok p u hb ha hdec hu
    refine ⟨auth_required_success handler now req st t1 tok p u hb ha hdec hu, ?_⟩
    have hpres := is_ip_blocked_failedAttempts st.throttle now req.ip
    rw [hb] at hpres
    exact hpres
  · intro handler now req st bu hbu hlt
    have hb : is_ip_blocked st.throttle now req.ip = (true, st.throttle) := by
      unfold is_ip_blocked
      rw [hbu]
      simp [hlt]
    rw [auth_required_blocked handler now req st st.throttle hb]

/-- Witness for C2 (amended): the concrete successful request of the
counterexample, pushed through the gateway theorem. -/
theorem C2_witness :
    ((auth_required probeHandler 10 reqFrom9 stFiveFailures).2).throttle.failedAttempts
      = [("9.9.9.9", 5)] := by
  have h := C2_gateway_success_leaves_counter.1 probeHandler 10 reqFrom9 stFiveFailures
      stFiveFailures.throttle tokUser1
      { sub := 1, email := "test@student.com", iat := 0, exp := 3600 }
      { id := 1, email := "test@student.com",
        password_hash := generate_password_hash "password123" }
      rfl rfl rfl rfl
  rw [h.1]
  rfl

/-- C7: every token minted by the login route carries
issued-at = now and expires-at = now + 3600; verifying any
correctly-signed token strictly more than 3600 seconds after issuance
yields ExpiredSignature; and the gateway surfaces that as a 401. -/
theorem C7_token_lifetime_3600 :
    (∀ (now : Nat) (ip : IP) (email? password? : Option String) (st : SState)
       (uid : Nat) (em : String) (tok : Token),
       ((login now ip email? password? st).1).body = RespBody.loginOk uid em tok →
       ∃ p : JwtPayload, tok = jwt_encode p JWT_SECRET_KEY
         ∧ p.iat = now ∧ p.exp = now + 3600)
    ∧ (∀ (p : JwtPayload) (key : String) (t : Nat),
       p.exp = p.iat + 3600 → p.iat + 3600 < t →
       jwt_decode (jwt_encode p key) key t = Except.error JwtError.ExpiredSignature)
    ∧ (∀ (handler : User → SState → Response × SState) (now : Nat) (req : Request)
       (st : SState) (t1 : ThrottleState) (tok : Token),
       is_ip_blocked st.throttle now req.ip = (false, t1) →
       req.authHeader = AuthHeaderVal.bearer tok →
       jwt_decode tok JWT_SECRET_KEY now = Except.error JwtError.ExpiredSignature →
       (auth_required handler now req st).1
         = { body := RespBody.err "Token expired", status := 401 }) := by
  refine ⟨?_, ?_, ?_⟩
  · intro now ip email? password? st uid em tok h
    unfold login at h
    dsimp only at h
    split at h
    · simp at h
    · split at h
      · simp at h
      · split at h
        · simp at h
        · injection h with h1 h2 h3
          exact ⟨_, h3.symm, rfl, rfl⟩
  · intro p key t hexp hlt
    unfold jwt_decode jwt_encode
    simp [hexp, Nat.le_of_lt hlt]
  · intro handler now req st t1 tok hb ha hdec
    rw [auth_required_expired handler now req st t1 tok hb ha hdec]

/-- Witness for C7 at concrete inputs: a login at time 50 mints a token
stamped iat 50 / exp 3650; that very token decoded at time 3651 is
ExpiredSignature; and a request at time 4000 bearing user 1's time-0
token is answered 401 Token expired. -/
theorem C7_witness :
    (∃ p : JwtPayload,
        jwt_encode { sub := 1, email := "test@student.com", iat := 50, exp := 3650 }
            JWT_SECRET_KEY
          = jwt_encode p JWT_SECRET_KEY ∧ p.iat = 50 ∧ p.exp = 50 + 3600)
    ∧ (jwt_decode (jwt_encode { sub := 1, email := "test@student.com", iat := 50, exp := 3650 }
          JWT_SECRET_KEY) JWT_SECRET_KEY 3651 = Except.error JwtError.ExpiredSignature)
    ∧ ((auth_required probeHandler 4000 reqFrom9 stClean).1
        = { body := RespBody.err "Token expired", status := 401 }) := by
  refine ⟨?_, ?_, ?_⟩
  · exact C7_token_lifetime_3600.1 50 "1.2.3.4" (some "test@student.com")
      (some "password123") stClean 1 "test@student.com"
      (jwt_encode { sub := 1, email := "test@student.com", iat := 50, exp := 3650 }
        JWT_SECRET_KEY) rfl
  · exact C7_token_lifetime_3600.2.1
      { sub := 1, email := "test@student.com", iat := 50, exp := 3650 }
      JWT_SECRET_KEY 3651 rfl (by decide)
  · exact C7_token_lifetime_3600.2.2 probeHandler 4000 reqFrom9 stClean
      stClean.throttle tokUser1 rfl rfl rfl

/-- C8 counterexample: at time 4000 the same client sending an expired
token and a malformed token gets two observably different responses —
both 401, but with bodies "Token expired" and "Invalid token"
respectively, so the responses are not identical as claimed. -/
theorem C8_counterexample :
    ((list_documents 4000 reqFrom9 stClean).1
        = { body := RespBody.err "Token expired", status := 401 })
    ∧ ((list_documents 4000
          { ip := "9.9.9.9", authHeader := AuthHeaderVal.bearer (Token.malformed "garbage") }
          stClean).1
        = { body := RespBody.err "Invalid token", status := 401 })
    ∧ ((list_documents 4000 reqFrom9 stClean).1
        ≠ (list_documents 4000
            { ip := "9.9.9.9", authHeader := AuthHeaderVal.bearer (Token.malformed "garbage") }
            stClean).1) := by
  refine ⟨?_, ?_, ?_⟩ <;> decide

/-- C8 as amended: expired and invalid tokens are both rejected with
status 401 before the handler runs, but with different bodies ("Token
expired" vs "Invalid token"), so the two cases are distinguishable by
the caller. -/
theorem C8_amended_distinct_401_bodies
    (handler : User → SState → Response × SState) (now : Nat) (req : Request)
    (st : SState) (t1 : ThrottleState) (tok : Token)
    (hb : is_ip_blocked st.throttle now req.ip = (false, t1))
    (ha : req.authHeader = AuthHeaderVal.bearer tok) :
    (jwt_decode tok JWT_SECRET_KEY now = Except.error JwtError.ExpiredSignature →
      (auth_required handler now req st).1
        = { body := RespBody.err "Token expired", status := 401 })
    ∧ (jwt_decode tok JWT_SECRET_KEY now = Except.error JwtError.InvalidToken →
      (auth_required handler now req st).1
        = { body := RespBody.err "Invalid token", status := 401 }) := by
  constructor
  · intro hdec
    rw [auth_required_expired handler now req st t1 tok hb ha hdec]
  · intro hdec
    rw [auth_required_invalid handler now req st t1 tok hb ha hdec]

/-- Witness for C8 (amended): the two concrete requests of the
counterexample pushed through the amended theorem. -/
theorem C8_witness :
    ((auth_required probeHandler 4000 reqFrom9 stClean).1
        = { body := RespBody.err "Token expired", status := 401 })
    ∧ ((auth_required probeHandler 4000
          { ip := "9.9.9.9", authHeader := AuthHeaderVal.bearer (Token.malformed "garbage") }
          stClean).1
        = { body := RespBody.err "Invalid token", status := 401 }) := by
  constructor
  · exact (C8_amended_distinct_401_bodies probeHandler 4000 reqFrom9 stClean
      stClean.throttle tokUser1 rfl rfl).1 rfl
  · exact (C8_amended_distinct_401_bodies probeHandler 4000
      { ip := "9.9.9.9", authHeader := AuthHeaderVal.bearer (Token.malformed "garbage") }
      stClean stClean.throttle (Token.malformed "garbage") rfl rfl).2 rfl

/-- A document owned by seeded user 1. -/
def docOfUser1 : Document :=
  { id := "doc-a", user_id := 1, original_name := "a.pdf",
    stored_name := "1_3_a.pdf", uploaded_at := 3 }

/-- A document owned by seeded user 2. -/
def docOfUser2 : Document :=
  { id := "doc-b", user_id := 2, original_name := "b.pdf",
    stored_name := "2_5_b.pdf", uploaded_at := 5 }

/-- A server state holding one document of each seeded user. -/
def stTwoDocs : SState :=
  { users := seededUsers, documents := [docOfUser1, docOfUser2],
    throttle := { failedAttempts := [], blockedIPs := [] },
    uploads := [], audit := [] }

/-- Request from 10.0.0.7 presenting user 1's valid token. -/
def reqUser1 : Request :=
  { ip := "10.0.0.7", authHeader := AuthHeaderVal.bearer tokUser1 }

/-- Request from 10.0.0.7 presenting user 2's valid token. -/
def reqUser2 : Request :=
  { ip := "10.0.0.7", authHeader := AuthHeaderVal.bearer tokUser2 }

/-- C3: under a successful authentication as user `u`, a download of an
id held by a document whose owner differs from `u` answers 403, appends
an audit record naming the requester, the document id and the client
address, and runs `register_failed_attempt` on the client address;
a download of an id matching no document answers 404 and leaves the
state untouched. -/
theorem C3_download_ownership_and_absence
    (now : Nat) (req : Request) (st : SState) (t1 : ThrottleState)
    (tok : Token) (p : JwtPayload) (u : User) (fid : String)
    (hb : is_ip_blocked st.throttle now req.ip = (false, t1))
    (ha : req.authHeader = AuthHeaderVal.bearer tok)
    (hdec : jwt_decode tok JWT_SECRET_KEY now = Except.ok p)
    (hu : st.users.find? (fun x => x.id == p.sub) = some u)
    (hfid : fid ≠ "") :
    (∀ doc : Document,
        st.documents.find? (fun d => d.id == fid) = some doc → doc.user_id ≠ u.id →
        ((download_document now req (some fid) st).1
            = { body := RespBody.err "Not authorized to download this file", status := 403 })
        ∧ AuditEvent.unauthorizedDownload u.id fid req.ip
            ∈ ((download_document now req (some fid) st).2).audit
        ∧ ((download_document now req (some fid) st).2).throttle
            = (register_failed_attempt t1 now req.ip).1)
    ∧ (st.documents.find? (fun d => d.id == fid) = none →
        (download_document now req (some fid) st)
          = ({ body := RespBody.err "File not found", status := 404 },
             { st with throttle := t1 })) := by
  unfold download_document
  rw [auth_required_success _ now req st t1 tok p u hb ha hdec hu]
  dsimp only
  rw [if_neg hfid]
  constructor
  · intro doc hdoc hne
    rw [hdoc]
    dsimp only
    rw [if_pos hne]
    refine ⟨rfl, ?_, rfl⟩
    simp
  · intro hnone
    rw [hnone]

/-- Witness for C3: user 2 downloading user 1's document "doc-a" gets
403, the audit record, and a registered failure; downloading the
nonexistent id "doc-z" gets 404 with nothing changed. -/
theorem C3_witness :
    (((download_document 10 reqUser2 (some "doc-a") stTwoDocs).1
        = { body := RespBody.err "Not authorized to download this file", status := 403 })
      ∧ AuditEvent.unauthorizedDownload 2 "doc-a" "10.0.0.7"
          ∈ ((download_document 10 reqUser2 (some "doc-a") stTwoDocs).2).audit
      ∧ ((download_document 10 reqUser2 (some "doc-a") stTwoDocs).2).throttle
          = (register_failed_attempt stTwoDocs.throttle 10 "10.0.0.7").1)
    ∧ ((download_document 10 reqUser2 (some "doc-z") stTwoDocs)
        = ({ body := RespBody.err "File not found", status := 404 },
           { stTwoDocs with throttle := stTwoDocs.throttle })) := by
  constructor
  · exact (C3_download_ownership_and_absence 10 reqUser2 stTwoDocs stTwoDocs.throttle
      tokUser2 payloadUser2 mockUser2 "doc-a" rfl rfl rfl rfl (by decide)).1
      docOfUser1 rfl (by decide)
  · exact (C3_download_ownership_and_absence 10 reqUser2 stTwoDocs stTwoDocs.throttle
      tokUser2 payloadUser2 mockUser2 "doc-z" rfl rfl rfl rfl (by decide)).2 rfl

/-- C4: under a successful authentication as user `u`, the list route
answers 200 with the serializations of a list of documents that
contains a document exactly when it is in the registry and owned by
`u`; in particular no other owner's document appears. -/
theorem C4_list_exactly_owned
    (now : Nat) (req : Request) (st : SState) (t1 : ThrottleState)
    (tok : Token) (p : JwtPayload) (u : User)
    (hb : is_ip_blocked st.throttle now req.ip = (false, t1))
    (ha : req.authHeader = AuthHeaderVal.bearer tok)
    (hdec : jwt_decode tok JWT_SECRET_KEY now = Except.ok p)
    (hu : st.users.find? (fun x => x.id == p.sub) = some u) :
    ∃ docs : List Document,
      (list_documents now req st).1
        = { body := RespBody.docList (docs.map serialize_document), status := 200 }
      ∧ (∀ d : Document, d ∈ docs ↔ (d ∈ st.documents ∧ d.user_id = u.id)) := by
  refine ⟨st.documents.filter (fun d => d.user_id == u.id), ?_, ?_⟩
  · unfold list_documents
    rw [auth_required_success _ now req st t1 tok p u hb ha hdec hu]
  · intro d
    simp [List.mem_filter]

/-- Witness for C4: listing as user 1 over a registry holding one
document of each user returns exactly the documents owned by 1. -/
theorem C4_witness :
    ∃ docs : List Document,
      (list_documents 10 reqUser1 stTwoDocs).1
        = { body := RespBody.docList (docs.map serialize_document), status := 200 }
      ∧ (∀ d : Document, d ∈ docs ↔ (d ∈ stTwoDocs.documents ∧ d.user_id = 1)) :=
  C4_list_exactly_owned 10 reqUser1 stTwoDocs stTwoDocs.throttle
    tokUser1 payloadUser1 mockUser1 rfl rfl rfl rfl

/-- C5: a successful upload appends exactly one document row whose
owner is the id of the user the gateway resolved from the verified
token — the quantification over the file (its name, type and bytes) and
the generated id shows no client-supplied input influences the owner;
and no route ever rewrites an existing row: every pre-existing document
row survives every operation unchanged. -/
theorem C5_owner_fixed_at_creation :
    (∀ (now : Nat) (req : Request) (st : SState) (t1 : ThrottleState)
       (tok : Token) (p : JwtPayload) (u : User) (file : FileStream) (newId : String),
       is_ip_blocked st.throttle now req.ip = (false, t1) →
       req.authHeader = AuthHeaderVal.bearer tok →
       jwt_decode tok JWT_SECRET_KEY now = Except.ok p →
       st.users.find? (fun x => x.id == p.sub) = some u →
       (validate_pdf file).1 = true →
       ∃ d : Document,
         ((upload_document now req (some file) newId st).2).documents
           = st.documents ++ [d]
         ∧ d.user_id = u.id)
    ∧ (∀ (now : Nat) (req : Request) (file? : Option FileStream) (newId : String)
        (st : SState) (d : Document), d ∈ st.documents →
        d ∈ ((upload_document now req file? newId st).2).documents)
    ∧ (∀ (now : Nat) (ip : IP) (email? password? : Option String) (st : SState)
        (d : Document), d ∈ st.documents →
        d ∈ ((login now ip email? password? st).2).documents)
    ∧ (∀ (now : Nat) (req : Request) (st : SState) (d : Document), d ∈ st.documents →
        d ∈ ((list_documents now req st).2).documents)
    ∧ (∀ (now : Nat) (req : Request) (fileId? : Option String) (st : SState)
        (d : Document), d ∈ st.documents →
        d ∈ ((download_document now req fileId? st).2).documents) := by
  refine ⟨?_, ?_, ?_, ?_, ?_⟩
  · intro now req st t1 tok p u file newId hb ha hdec hu hv
    unfold upload_document
    rw [auth_required_success _ now req st t1 tok p u hb ha hdec hu]
    dsimp only
    rw [hv]
    exact ⟨_, rfl, rfl⟩
  · intro now req file? newId st d hd
    unfold upload_document
    refine auth_required_documents_mem _ now req st d ?_ hd
    intro u s hds
    cases file? with
    | none => exact hds
    | some file =>
        dsimp only
        cases hv : (validate_pdf file).1
        · simpa using hds
        · simp only [Bool.not_true, Bool.false_eq_true, if_false]
          simp
          exact Or.inl hds
  · intro now ip email? password? st d hd
    rw [login_documents now ip email? password? st]
    exact hd
  · intro now req st d hd
    unfold list_documents
    exact auth_required_documents_mem _ now req st d (fun u s hds => hds) hd
  · intro now req fileId? st d hd
    unfold download_document
    refine auth_required_documents_mem _ now req st d ?_ hd
    intro u s hds
    cases fileId? with
    | none => exact hds
    | some fid =>
        dsimp only
        by_cases hz : fid = ""
        · simpa [hz] using hds
        · rw [if_neg hz]
          cases hf : s.documents.find? (fun dd => dd.id == fid) with
          | none => exact hds
          | some doc =>
              dsimp only
              by_cases hown : doc.user_id ≠ u.id
              · rw [if_pos hown]
                exact hds
              · rw [if_neg hown]
                exact hds

/-- Witness for C5: user 1 uploading a valid PDF over the two-document
registry appends one row owned by 1. -/
theorem C5_witness :
    ∃ d : Document,
      ((upload_document 10 reqUser1 (some fileOk) "uuid-1" stTwoDocs).2).documents
        = stTwoDocs.documents ++ [d]
      ∧ d.user_id = 1 :=
  C5_owner_fixed_at_creation.1 10 reqUser1 stTwoDocs stTwoDocs.throttle
    tokUser1 payloadUser1 mockUser1 fileOk "uuid-1" rfl rfl rfl rfl (by decide)

/-- An upload that fails validation: PDF MIME type and extension but
wrong leading bytes. -/
def fileBadMagic : FileStream :=
  { filename := "a.pdf", mimetype := "application/pdf",
    content := [1, 2, 3, 4], pos := 0 }

/-- C10: under a successful authentication, an upload rejected for a
missing file part or for failed PDF validation answers 400 and leaves
both the document registry and the upload folder exactly as they were. -/
theorem C10_rejected_upload_changes_nothing
    (now : Nat) (req : Request) (st : SState) (t1 : ThrottleState)
    (tok : Token) (p : JwtPayload) (u : User) (newId : String)
    (hb : is_ip_blocked st.throttle now req.ip = (false, t1))
    (ha : req.authHeader = AuthHeaderVal.bearer tok)
    (hdec : jwt_decode tok JWT_SECRET_KEY now = Except.ok p)
    (hu : st.users.find? (fun x => x.id == p.sub) = some u) :
    (((upload_document now req none newId st).1.status = 400)
      ∧ ((upload_document now req none newId st).2).documents = st.documents
      ∧ ((upload_document now req none newId st).2).uploads = st.uploads)
    ∧ (∀ file : FileStream, (validate_pdf file).1 = false →
        ((upload_document now req (some file) newId st).1.status = 400)
        ∧ ((upload_document now req (some file) newId st).2).documents = st.documents
        ∧ ((upload_document now req (some file) newId st).2).uploads = st.uploads) := by
  constructor
  · unfold upload_document
    rw [auth_required_success _ now req st t1 tok p u hb ha hdec hu]
    exact ⟨rfl, rfl, rfl⟩
  · intro file hv
    unfold upload_document
    rw [auth_required_success _ now req st t1 tok p u hb ha hdec hu]
    dsimp only
    rw [hv]
    exact ⟨rfl, rfl, rfl⟩

/-- Witness for C10: the missing-file-part rejection and the
bad-signature rejection, both as user 1 over the two-document state. -/
theorem C10_witness :
    (((upload_document 10 reqUser1 none "uuid-2" stTwoDocs).1.status = 400)
      ∧ ((upload_document 10 reqUser1 none "uuid-2" stTwoDocs).2).documents
          = stTwoDocs.documents
      ∧ ((upload_document 10 reqUser1 none "uuid-2" stTwoDocs).2).uploads
          = stTwoDocs.uploads)
    ∧ (((upload_document 10 reqUser1 (some fileBadMagic) "uuid-2" stTwoDocs).1.status = 400)
      ∧ ((upload_document 10 reqUser1 (some fileBadMagic) "uuid-2" stTwoDocs).2).documents
          = stTwoDocs.documents
      ∧ ((upload_document 10 reqUser1 (some fileBadMagic) "uuid-2" stTwoDocs).2).uploads
          = stTwoDocs.uploads) := by
  have h := C10_rejected_upload_changes_nothing 10 reqUser1 stTwoDocs stTwoDocs.throttle
      tokUser1 payloadUser1 mockUser1 "uuid-2" rfl rfl rfl rfl
  exact ⟨h.1, h.2 fileBadMagic (by decide)⟩

end StudentPortal
